import Mathlib

set_option maxRecDepth 8000

namespace OpenWrtBuilder

/-! Shallow embedding of the OpenWRT_builder build-lifecycle core
(`openwrt_builder/service` and `openwrt_builder/runner`): the build record
data model, the persistent FIFO queue, registry operations, the runner's
executor-update application, and the executor's artifact collection. -/

/-- Build lifecycle states (`BuildState` in `service/models.py`). -/
inductive BuildState
  | queued
  | running
  | done
  | failed
  | canceled
deriving DecidableEq

/-- Image kinds accepted in `options.output_images` (`ImageKind` in `service/models.py`). -/
inductive ImageKind
  | sysupgrade
  | factory
deriving DecidableEq

/-- Artifact roles (`ArtifactRole` in `service/models.py`). -/
inductive ArtifactRole
  | primary
  | optional
  | checksum
  | manifest
deriving DecidableEq

/-- `BuildOptionsModel` in `service/models.py`. -/
structure BuildOptions where
  force_rebuild : Bool
  debug : Bool
  output_images : List ImageKind
deriving DecidableEq

/-- `BuildRequestModel` in `service/models.py`. -/
structure BuildRequest where
  profile_id : String
  platform : String
  target : String
  subtarget : String
  version : String
  options : BuildOptions
deriving DecidableEq

/-- `BuildArtifactModel` in `service/models.py` (`atype` stands for the
`type` field, a Lean keyword). -/
structure Artifact where
  id : String
  name : String
  path : String
  size : Nat
  atype : String
  role : ArtifactRole
deriving DecidableEq

/-- `BuildResultModel` in `service/models.py`. -/
structure BuildResult where
  artifacts : List Artifact
deriving DecidableEq

/-- `BuildPhaseEventModel` in `service/models.py` (`at_` stands for the
`at` field, a Lean keyword). -/
structure PhaseEvent where
  at_ : String
  phase : String
  progress : Int
  message : Option String
deriving DecidableEq

/-- `BuildLogsModel` in `service/models.py`; the log tails are Python `str`
values, embedded as `List Char`. -/
structure BuildLogs where
  stdout_path : Option String
  stderr_path : Option String
  stdout_tail : List Char
  stderr_tail : List Char
  updated_at : Option String
deriving DecidableEq

/-- `BuildModel` in `service/models.py`: one persisted build record. -/
structure Build where
  build_id : String
  state : BuildState
  created_at : String
  updated_at : String
  progress : Int
  message : Option String
  phase : Option String
  phase_events : List PhaseEvent
  logs : Option BuildLogs
  request : BuildRequest
  result : Option BuildResult
  cancel_requested : Bool
  runner_pid : Option Nat
deriving DecidableEq

/-- Membership of a state in the terminal set, as tested by
`state in ("done", "failed", "canceled")` at several places in the source. -/
def terminalState (s : BuildState) : Bool :=
  match s with
  | BuildState.done => true
  | BuildState.failed => true
  | BuildState.canceled => true
  | _ => false

/-! ### String helpers shared by the embedded operations -/

/-- ASCII whitespace recognizer used to embed Python `str.strip()`. -/
def isSpaceChar (c : Char) : Bool :=
  c = ' ' || c = '\t' || c = '\n' || c = '\r'

/-- Drop characters satisfying `p` from both ends of a character list. -/
def stripList (p : Char → Bool) (s : List Char) : List Char :=
  ((s.dropWhile p).reverse.dropWhile p).reverse

/-- Python `str.strip()` on a Lean string. -/
def pyStrip (s : String) : String :=
  String.mk (stripList isSpaceChar s.data)

/-- Python `x if x else None` on an optional string: `None` and the empty
string are falsy. -/
def truthyOrNone (s : Option String) : Option String :=
  match s with
  | none => none
  | some v => if v = "" then none else some v

/-- Python `value.strip() or None`. -/
def orNoneIfEmpty (s : String) : Option String :=
  if s = "" then none else some s

/-! ### ImageBuilder executor: artifact collection
(`runner/imagebuilder_executor.py`, `ImageBuilderExecutor.__call__`,
lines 550-585). -/

/-- `_IMAGE_SUFFIX` table in `runner/imagebuilder_executor.py`. -/
def imageSuffix (k : ImageKind) : String :=
  match k with
  | ImageKind.sysupgrade => "squashfs-sysupgrade.bin"
  | ImageKind.factory => "squashfs-factory.bin"

/-- The artifact `id` string stored for each image kind. -/
def imageKindId (k : ImageKind) : String :=
  match k with
  | ImageKind.sysupgrade => "sysupgrade"
  | ImageKind.factory => "factory"

/-- `image_name` as interpolated in the collection loop:
`openwrt-{version}-{target}-{subtarget}-{platform}-{suffix}`. -/
def imageName (version target subtarget plat : String) (k : ImageKind) : String :=
  "openwrt-" ++ version ++ "-" ++ target ++ "-" ++ subtarget ++ "-" ++ plat ++ "-" ++ imageSuffix k

/-- The artifact dict appended for one image kind (executor lines 560-569);
`sizeOf` abstracts `artifact_dst.stat().st_size`. -/
def collectedArtifact (version target subtarget plat buildRoot : String)
    (sizeOf : ImageKind → Nat) (k : ImageKind) : Artifact :=
  { id := imageKindId k
    name := imageName version target subtarget plat k
    path := buildRoot ++ "/" ++ imageName version target subtarget plat k
    size := sizeOf k
    atype := "firmware"
    role := if k = ImageKind.sysupgrade then ArtifactRole.primary else ArtifactRole.optional }

/-- Executor lines 582-583: `if artifacts and artifacts[0]["role"] != "primary":
artifacts[0]["role"] = "primary"` — the promotion tests only the FIRST
artifact's role. -/
def promote_first (arts : List Artifact) : List Artifact :=
  match arts with
  | [] => []
  | a :: rest =>
    if a.role ≠ ArtifactRole.primary then { a with role := ArtifactRole.primary } :: rest
    else a :: rest

/-- Modelled from the spec: "If none of the collected artifacts is primary,
promote the first to `primary`." (spec section 4.5, artifact collection). -/
def promote_first_spec (arts : List Artifact) : List Artifact :=
  if arts.all (fun a => !(decide (a.role = ArtifactRole.primary))) then
    match arts with
    | [] => []
    | a :: rest => { a with role := ArtifactRole.primary } :: rest
  else arts

/-- The successful-run artifact list returned by the executor
(collection loop over `output_images` followed by the first-artifact
promotion, executor lines 550-585). -/
def collect_artifacts (version target subtarget plat buildRoot : String)
    (sizeOf : ImageKind → Nat) (output_images : List ImageKind) : List Artifact :=
  promote_first (output_images.map (collectedArtifact version target subtarget plat buildRoot sizeOf))

/-- Number of artifacts carrying `role = primary`. -/
def countPrimary (arts : List Artifact) : Nat :=
  (arts.filter (fun a => decide (a.role = ArtifactRole.primary))).length

/-- Claim C1: the executor is claimed to promote the first artifact only when
none of the collected artifacts is primary, so that every successful run has
exactly one primary artifact for any duplicate-free order of
`output_images` drawn from sysupgrade and factory. The code instead promotes
the first artifact whenever the FIRST artifact is not primary: for
`output_images = [factory, sysupgrade]` the factory artifact is promoted even
though the sysupgrade artifact is already primary, yielding TWO primary
artifacts, while the spec-modelled promotion yields exactly one; the orders
that start with sysupgrade do yield exactly one. -/
theorem c1_factory_first_two_primaries :
    countPrimary (collect_artifacts "23.05.4" "ath79" "generic" "tl-wdr4300"
      "/data/builds/b1" (fun _ => 1024) [ImageKind.factory, ImageKind.sysupgrade]) = 2
    ∧ countPrimary (promote_first_spec
        ([ImageKind.factory, ImageKind.sysupgrade].map
          (collectedArtifact "23.05.4" "ath79" "generic" "tl-wdr4300" "/data/builds/b1"
            (fun _ => 1024)))) = 1
    ∧ countPrimary (collect_artifacts "23.05.4" "ath79" "generic" "tl-wdr4300"
        "/data/builds/b1" (fun _ => 1024) [ImageKind.sysupgrade, ImageKind.factory]) = 1
    ∧ countPrimary (collect_artifacts "23.05.4" "ath79" "generic" "tl-wdr4300"
        "/data/builds/b1" (fun _ => 1024) [ImageKind.sysupgrade]) = 1 := by
  refine ⟨?_, ?_, ?_, ?_⟩ <;> rfl

/-! ### Startup recovery (`runner/runner.py`, `BuildRunner.requeue_running_on_startup`,
lines 239-259). -/

/-- The builds directory together with the queue document, as seen by the
runner at startup. -/
structure RunnerStore where
  builds : List Build
  queue : List String
deriving DecidableEq

/-- The rewrite applied to one record by `requeue_running_on_startup`
(lines 247-254): only records with `state = running` are changed. -/
def requeue_record (now : String) (b : Build) : Build :=
  if b.state = BuildState.running then
    { b with
      state := BuildState.queued
      progress := 0
      message := some "runner_restart_requeued"
      phase := some "queued"
      runner_pid := none
      updated_at := now }
  else b

/-- `BuildRunner.requeue_running_on_startup`: iterates the record files and
rewrites every running record; the method never touches the queue document
(`self._queue` is not used anywhere in its body). -/
def requeue_running_on_startup (now : String) (s : RunnerStore) : RunnerStore :=
  { s with builds := s.builds.map (requeue_record now) }

/-- A concrete options payload used by evaluation theorems. -/
def sampleOpts : BuildOptions :=
  { force_rebuild := false, debug := false, output_images := [ImageKind.sysupgrade] }

/-- A concrete request payload used by evaluation theorems. -/
def sampleReq : BuildRequest :=
  { profile_id := "router", platform := "tl-wdr4300", target := "ath79"
    subtarget := "generic", version := "23.05.4", options := sampleOpts }

/-- A concrete record in state `running`, as left behind by a crashed runner. -/
def sampleRunning : Build :=
  { build_id := "b1", state := BuildState.running, created_at := "2026-01-02T03:04:05Z"
    updated_at := "2026-01-02T03:05:06Z", progress := 42, message := some "building"
    phase := some "building", phase_events := [], logs := none, request := sampleReq
    result := none, cancel_requested := false, runner_pid := some 777 }

/-- Claim C2: startup recovery is claimed to rewrite every running record to
`queued` (with the reset fields) AND afterwards ensure each such `build_id` is
present in the persistent queue. The code performs the rewrite but never
re-enqueues: starting from one running record `b1` and an empty queue, the
record is rewritten as specified, yet the queue stays empty, so `b1` is not in
the queue and would never run again. -/
theorem c2_requeue_does_not_enqueue :
    (requeue_running_on_startup "2026-01-02T03:06:00Z"
        { builds := [sampleRunning], queue := [] }).builds =
      [{ sampleRunning with
          state := BuildState.queued, progress := 0
          message := some "runner_restart_requeued", phase := some "queued"
          runner_pid := none, updated_at := "2026-01-02T03:06:00Z" }]
    ∧ (requeue_running_on_startup "2026-01-02T03:06:00Z"
        { builds := [sampleRunning], queue := [] }).queue = []
    ∧ sampleRunning.build_id ∉
        (requeue_running_on_startup "2026-01-02T03:06:00Z"
          { builds := [sampleRunning], queue := [] }).queue := by
  refine ⟨rfl, rfl, ?_⟩
  simp [requeue_running_on_startup]

/-! ### Atomic JSON store (`service/profiles_registry.py`,
`BaseRegistry._atomic_write_json`, lines 52-68). -/

/-- The directory in which `_atomic_write_json` creates its temp file: the
source hard-codes `tmp_dir = Path("/tmp")` regardless of the destination. -/
def atomic_write_tmp_dir (_dest : String) : String := "/tmp"

/-- Split a character list on a separator character (pieces keep order; a
separator at either end yields an empty piece, like Python `str.split(sep)`). -/
def splitOnChar (sep : Char) : List Char → List (List Char)
  | [] => [[]]
  | c :: rest =>
    let r := splitOnChar sep rest
    if c = sep then [] :: r
    else
      match r with
      | [] => [[c]]
      | h :: t => (c :: h) :: t

/-- Join character-list pieces with a separator character. -/
def joinWithChar (sep : Char) : List (List Char) → List Char
  | [] => []
  | [x] => x
  | x :: rest => x ++ sep :: joinWithChar sep rest

/-- Directory component of a slash-separated path. -/
def parentDir (p : String) : String :=
  String.mk (joinWithChar '/' ((splitOnChar '/' p.data).dropLast))

/-- Modelled from the spec: the implementation policy "write to a sibling temp
file in the same filesystem" places the temp file in the destination's own
directory (spec section 4.1). -/
def sibling_tmp_dir (dest : String) : String := parentDir dest

/-- Destination contents observable after a crash during the final
`shutil.move(tmp_name, path)` of `_atomic_write_json`. Modelled from the spec
and Python's documented `shutil.move` behavior, which is not part of this
repository: when source and destination are on the same filesystem the move is
a single `os.rename` (the destination holds the old or the new complete
value); otherwise it falls back to copying into the destination before
unlinking the source, so a crash mid-copy can leave any prefix of the new
serialized value in the destination. -/
def move_crash_contents (sameFs : Bool) (oldContent newContent : List Char) :
    List (List Char) :=
  if sameFs then [oldContent, newContent]
  else oldContent :: (List.range (newContent.length + 1)).map (fun k => newContent.take k)

/-- Claim C3: the store is claimed to write the temp file as a sibling in the
same filesystem as the destination, making the rename atomic so a crash leaves
the old or the new complete value. The code instead always creates the temp
file under `/tmp`: for the destination `/data/builds/b1.json` the temp
directory is `/tmp`, not the sibling directory `/data/builds`, and when `/tmp`
is a different filesystem the fallback copy can leave a proper prefix of the
new value — a content that is neither the old nor the new complete value. -/
theorem c3_tmp_dir_not_sibling :
    atomic_write_tmp_dir "/data/builds/b1.json" = "/tmp"
    ∧ sibling_tmp_dir "/data/builds/b1.json" = "/data/builds"
    ∧ atomic_write_tmp_dir "/data/builds/b1.json" ≠ sibling_tmp_dir "/data/builds/b1.json"
    ∧ ("ne".data ∈ move_crash_contents false "old".data "newvalue".data
        ∧ "ne".data ≠ "old".data ∧ "ne".data ≠ "newvalue".data)
    ∧ move_crash_contents true "old".data "newvalue".data = ["old".data, "newvalue".data] := by
  refine ⟨rfl, by decide, by decide, ⟨by decide, by decide, by decide⟩, by decide⟩

/-! ### Persistent FIFO queue (`service/build_queue.py`, `BuildQueue`).
The queue document is `{items, updated_at}`; `items` is embedded as the
state. Each operation runs under the sidecar lock, so the embedding is the
sequential composition of the read-modify-write bodies. -/

/-- The queue document's `items` list. -/
structure QueueState where
  items : List String
deriving DecidableEq

/-- `BuildQueue.enqueue` (lines 63-74): `none` models the `ValueError` raised
for an empty id; otherwise append if absent, report `false` if present. -/
def enqueue (x : String) (s : QueueState) : Option (Bool × QueueState) :=
  if x = "" then none
  else if x ∈ s.items then some (false, s)
  else some (true, { items := s.items ++ [x] })

/-- `BuildQueue.dequeue` (lines 76-85): pop the head, `none` when empty. -/
def dequeue (s : QueueState) : Option String × QueueState :=
  match s.items with
  | [] => (none, s)
  | h :: t => (some h, { items := t })

/-- `BuildQueue.remove` (lines 87-99): filter out every occurrence, report
whether the length changed; `none` models the `ValueError` for an empty id. -/
def queue_remove (x : String) (s : QueueState) : Option (Bool × QueueState) :=
  if x = "" then none
  else
    let items2 := s.items.filter (fun z => !(z == x))
    some (decide (items2.length ≠ s.items.length), { items := items2 })

/-- One queue operation, for reasoning over arbitrary interleavings. -/
inductive QueueOp
  | enq (x : String)
  | deq
  | rem (x : String)

/-- State reached after one queue operation (an operation rejected with
`ValueError` leaves the document unchanged). -/
def queue_step (s : QueueState) (op : QueueOp) : QueueState :=
  match op with
  | QueueOp.enq x =>
    match enqueue x s with
    | some (_, s2) => s2
    | none => s
  | QueueOp.deq => (dequeue s).2
  | QueueOp.rem x =>
    match queue_remove x s with
    | some (_, s2) => s2
    | none => s

/-- Queue state after an arbitrary operation sequence from the empty queue
(the state `__init__` writes for a fresh queue file). -/
def queue_run (ops : List QueueOp) : QueueState :=
  ops.foldl queue_step { items := [] }

/-- One queue step keeps `items` duplicate-free. -/
theorem queue_step_nodup (s : QueueState) (op : QueueOp)
    (h : s.items.Nodup) : (queue_step s op).items.Nodup := by
  cases op with
  | enq x =>
    by_cases hx : x = ""
    · simp [queue_step, enqueue, hx, h]
    · by_cases hmem : x ∈ s.items
      · simp [queue_step, enqueue, hx, hmem, h]
      · simp [queue_step, enqueue, hx, hmem, List.nodup_append, h, List.disjoint_singleton]
  | deq =>
    cases hs : s.items with
    | nil => simp [queue_step, dequeue, hs]
    | cons a t =>
      have := h
      rw [hs] at this
      simpa [queue_step, dequeue, hs] using this.of_cons
  | rem x =>
    by_cases hx : x = ""
    · simp [queue_step, queue_remove, hx, h]
    · simp only [queue_step, queue_remove, hx, if_false]
      exact h.filter _

/-- Claim C6: queue laws. `enqueue` appends only when absent and returns
`false` leaving `items` unchanged when present; over any operation sequence
from the empty queue, `items` stays duplicate-free; `dequeue` removes and
returns the head (`none` when empty); and every step either leaves `items`
unchanged, appends a fresh element at the back, removes the head, or filters
out one element — so surviving elements keep their relative order and dequeue
order equals enqueue order (FIFO). -/
theorem c6_queue_laws :
    (∀ x s, x ≠ "" → x ∈ s.items → enqueue x s = some (false, s))
    ∧ (∀ x s, x ≠ "" → x ∉ s.items →
        enqueue x s = some (true, { items := s.items ++ [x] }))
    ∧ (∀ ops, (queue_run ops).items.Nodup)
    ∧ (∀ s, s.items = [] → dequeue s = (none, s))
    ∧ (∀ s h t, s.items = h :: t → dequeue s = (some h, { items := t }))
    ∧ (∀ s op,
        (queue_step s op).items = s.items
        ∨ (∃ x, x ∉ s.items ∧ (queue_step s op).items = s.items ++ [x])
        ∨ (queue_step s op).items = s.items.tail
        ∨ (∃ x, (queue_step s op).items = s.items.filter (fun z => !(z == x)))) := by
  refine ⟨?_, ?_, ?_, ?_, ?_, ?_⟩
  · intro x s hx hmem
    simp [enqueue, hx, hmem]
  · intro x s hx hmem
    simp [enqueue, hx, hmem]
  · intro ops
    have main : ∀ (l : List QueueOp) (s : QueueState), s.items.Nodup →
        (l.foldl queue_step s).items.Nodup := by
      intro l
      induction l with
      | nil => intro s hs; exact hs
      | cons op rest ih =>
        intro s hs
        exact ih (queue_step s op) (queue_step_nodup s op hs)
    exact main ops { items := [] } (by simp)
  · intro s hs
    simp [dequeue, hs]
  · intro s h t hs
    simp [dequeue, hs]
  · intro s op
    cases op with
    | enq x =>
      by_cases hx : x = ""
      · exact Or.inl (by simp [queue_step, enqueue, hx])
      · by_cases hmem : x ∈ s.items
        · exact Or.inl (by simp [queue_step, enqueue, hx, hmem])
        · exact Or.inr (Or.inl ⟨x, hmem, by simp [queue_step, enqueue, hx, hmem]⟩)
    | deq =>
      refine Or.inr (Or.inr (Or.inl ?_))
      cases hs : s.items with
      | nil => simp [queue_step, dequeue, hs]
      | cons a t => simp [queue_step, dequeue, hs]
    | rem x =>
      by_cases hx : x = ""
      · exact Or.inl (by simp [queue_step, queue_remove, hx])
      · exact Or.inr (Or.inr (Or.inr ⟨x, by simp [queue_step, queue_remove, hx]⟩))

/-- Witness for C6: the laws evaluated on concrete queues — a duplicate
enqueue of `"b1"` is rejected and leaves the single occurrence, a fresh
enqueue appends, and dequeue pops the head of `["b1", "b2"]`. -/
theorem c6_queue_laws_witness :
    enqueue "b1" { items := ["b1"] } = some (false, { items := ["b1"] })
    ∧ enqueue "b2" { items := ["b1"] } = some (true, { items := ["b1", "b2"] })
    ∧ dequeue { items := ["b1", "b2"] } = (some "b1", { items := ["b2"] }) :=
  ⟨c6_queue_laws.1 "b1" { items := ["b1"] } (by decide) (by decide),
   c6_queue_laws.2.1 "b2" { items := ["b1"] } (by decide) (by decide),
   c6_queue_laws.2.2.2.2.1 { items := ["b1", "b2"] } "b1" ["b2"] rfl⟩

/-! ### Build registry: cancellation (`service/builds_registry.py`,
`BuildsRegistry.cancel_build`, lines 172-199). -/

/-- `BuildsRegistry.cancel_build`, acting on the stored record `b` and the
queue `items`; `now` embeds `BaseRegistry._now_z()`. Returns the boolean
result together with the persisted record and the queue afterwards. -/
def cancel_build (now : String) (b : Build) (q : List String) :
    Bool × Build × List String :=
  if terminalState b.state then (false, b, q)
  else if b.state = BuildState.queued then
    (true,
      { b with state := BuildState.canceled, updated_at := now, message := some "canceled" },
      q.filter (fun z => !(z == b.build_id)))
  else if b.state = BuildState.running then
    (true,
      { b with cancel_requested := true, updated_at := now, message := some "cancel_requested" },
      q)
  else (false, b, q)

/-- Claim C5: `cancel_build` returns `false` and changes nothing on a
terminal record; on a `queued` record it persists `state = canceled`,
`message = "canceled"`, a refreshed `updated_at`, removes the id from the
queue and returns `true`; on a `running` record it persists
`cancel_requested = true`, `message = "cancel_requested"`, a refreshed
`updated_at`, leaves `state` unchanged and returns `true`. -/
theorem c5_cancel_build (now : String) (b : Build) (q : List String) :
    (terminalState b.state = true → cancel_build now b q = (false, b, q))
    ∧ (b.state = BuildState.queued →
        cancel_build now b q =
          (true,
            { b with state := BuildState.canceled, updated_at := now, message := some "canceled" },
            q.filter (fun z => !(z == b.build_id))))
    ∧ (b.state = BuildState.running →
        cancel_build now b q =
          (true,
            { b with cancel_requested := true, updated_at := now, message := some "cancel_requested" },
            q))
    ∧ (b.state = BuildState.running → (cancel_build now b q).2.1.state = b.state) := by
  refine ⟨?_, ?_, ?_, ?_⟩
  · intro hterm
    simp [cancel_build, hterm]
  · intro hq
    simp [cancel_build, hq, terminalState]
  · intro hr
    simp [cancel_build, hr, terminalState]
  · intro hr
    simp [cancel_build, hr, terminalState]

/-- A concrete record in state `queued`, used by witnesses. -/
def sampleQueued : Build :=
  { build_id := "b1", state := BuildState.queued, created_at := "2026-01-02T03:04:05Z"
    updated_at := "2026-01-02T03:04:05Z", progress := 0, message := none
    phase := none, phase_events := [], logs := none, request := sampleReq
    result := none, cancel_requested := false, runner_pid := none }

/-- A concrete record in state `done`, used by witnesses. -/
def sampleDone : Build :=
  { sampleQueued with
    state := BuildState.done, progress := 100
    message := some "done", phase := some "done" }

/-- Witness for C5: the three branches evaluated on concrete records — a
`done` record is untouched with result `false`, a `queued` record becomes
`canceled` and leaves the queue, a `running` record keeps its state and gains
the cancel flag. -/
theorem c5_cancel_build_witness :
    cancel_build "2026-01-02T03:07:00Z" sampleDone ["b9"] = (false, sampleDone, ["b9"])
    ∧ cancel_build "2026-01-02T03:07:00Z" sampleQueued ["b1", "b9"] =
        (true,
          { sampleQueued with
            state := BuildState.canceled
            updated_at := "2026-01-02T03:07:00Z", message := some "canceled" },
          ["b9"])
    ∧ cancel_build "2026-01-02T03:07:00Z" sampleRunning [] =
        (true,
          { sampleRunning with
            cancel_requested := true
            updated_at := "2026-01-02T03:07:00Z", message := some "cancel_requested" },
          []) := by
  refine ⟨?_, ?_, ?_⟩
  · exact (c5_cancel_build "2026-01-02T03:07:00Z" sampleDone ["b9"]).1 (by decide)
  · have h := (c5_cancel_build "2026-01-02T03:07:00Z" sampleQueued ["b1", "b9"]).2.1 (by rfl)
    rw [h]
    decide
  · exact (c5_cancel_build "2026-01-02T03:07:00Z" sampleRunning []).2.2.1 (by rfl)

/-! ### Build registry: creation and deduplication
(`service/builds_registry.py`, `BuildsRegistry._normalize_request` lines 84-96
and `BuildsRegistry.create_build` lines 120-170; `BaseRegistry._slug` in
`service/profiles_registry.py` lines 44-50). -/

/-- `BuildsRegistry._normalize_request`: deep copy of the validated request
with `options.force_rebuild` forced to `False`. -/
def normalize_request (r : BuildRequest) : BuildRequest :=
  { r with options := { r.options with force_rebuild := false } }

/-- One iteration of the dedup scan in `create_build` (lines 148-151): a
record is returned iff its normalized request equals the new normalized
request and its state is `done`; matching records in any other state are
skipped and the scan continues. -/
def matchesCacheDone (normalized : BuildRequest) (b : Build) : Bool :=
  decide (normalize_request b.request = normalized) && decide (b.state = BuildState.done)

/-- Lowercase-ASCII-alphanumeric recognizer, the character class of the
`[^a-z0-9]+` pattern in `BaseRegistry._slug`. -/
def isLowerAlnum (c : Char) : Bool :=
  decide (('a' ≤ c ∧ c ≤ 'z') ∨ ('0' ≤ c ∧ c ≤ '9'))

/-- Collapse every run of dashes to a single dash (`re.sub(r"-{2,}", "-")`). -/
def collapseDashes : List Char → List Char
  | [] => []
  | c :: rest =>
    match collapseDashes rest with
    | [] => [c]
    | d :: rest2 => if c = '-' ∧ d = '-' then d :: rest2 else c :: d :: rest2

/-- `BaseRegistry._slug` over the characters of the input: strip whitespace,
lowercase, turn every non-`[a-z0-9]` character into `-` (so each run of such
characters becomes a run of dashes), collapse dash runs, trim dashes.
Mapping the characters and then collapsing dash runs computes the same result
as the source's `re.sub(r"[^a-z0-9]+", "-", value)` followed by
`re.sub(r"-{2,}", "-", value)`. -/
def slugList (s : List Char) : List Char :=
  let t := ((stripList isSpaceChar s).map Char.toLower).map
    (fun c => if isLowerAlnum c then c else '-')
  stripList (fun c => c == '-') (collapseDashes t)

/-- `BaseRegistry._slug` on strings. -/
def slugStr (s : String) : String :=
  String.mk (slugList s.data)

/-- The fresh record dict built by `create_build` (lines 155-166); the fields
absent from the dict (`phase`, `phase_events`, `logs`) take the `BuildModel`
defaults applied by `_write_build`'s validation. -/
def fresh_build (req : BuildRequest) (bid now : String) : Build :=
  { build_id := bid, state := BuildState.queued, created_at := now, updated_at := now
    progress := 0, message := none, phase := none, phase_events := [], logs := none
    request := req, result := none, cancel_requested := false, runner_pid := none }

/-- `BuildsRegistry.create_build` on the validated request: `builds` is the
result of `list_builds()` (every stored record, in `updated_at` order), `now`
embeds `BaseRegistry._now_z()`. Returns the record and the `created` flag. -/
def create_build (builds : List Build) (req : BuildRequest) (now : String) :
    Build × Bool :=
  let normalized := normalize_request req
  let force := req.options.force_rebuild
  let cached := if force then none else builds.find? (matchesCacheDone normalized)
  match cached with
  | some existing => (existing, false)
  | none => (fresh_build req (slugStr (req.profile_id ++ "-" ++ now)) now, true)

/-- Claim C4: deduplication in `create_build`. With `force_rebuild = false`,
if some existing record's normalized fingerprint equals the new request's and
its state is `done`, the call returns `created = false` with such a record;
whenever `created = false` the returned record is an existing record whose
fingerprint matches and whose state is `done` (no other state satisfies the
cache); if no matching record is `done` a new record is created; and with
`force_rebuild = true` a new record is always created. -/
theorem c4_dedup (builds : List Build) (req : BuildRequest) (now : String) :
    (req.options.force_rebuild = true →
      create_build builds req now =
        (fresh_build req (slugStr (req.profile_id ++ "-" ++ now)) now, true))
    ∧ ((create_build builds req now).2 = false →
        (create_build builds req now).1 ∈ builds
        ∧ normalize_request (create_build builds req now).1.request = normalize_request req
        ∧ (create_build builds req now).1.state = BuildState.done)
    ∧ (req.options.force_rebuild = false →
        (∃ b ∈ builds, normalize_request b.request = normalize_request req
          ∧ b.state = BuildState.done) →
        (create_build builds req now).2 = false)
    ∧ (req.options.force_rebuild = false →
        (∀ b ∈ builds, normalize_request b.request = normalize_request req →
          b.state ≠ BuildState.done) →
        create_build builds req now =
          (fresh_build req (slugStr (req.profile_id ++ "-" ++ now)) now, true)) := by
  refine ⟨?_, ?_, ?_, ?_⟩
  · intro hforce
    simp [create_build, hforce]
  · intro hcreated
    by_cases hforce : req.options.force_rebuild
    · simp [create_build, hforce] at hcreated
    · cases hfind : builds.find? (matchesCacheDone (normalize_request req)) with
      | none => simp [create_build, hforce, hfind] at hcreated
      | some b =>
        have hmem : b ∈ builds := List.mem_of_find?_eq_some hfind
        have hp : matchesCacheDone (normalize_request req) b = true :=
          List.find?_some hfind
        have hp2 := hp
        simp only [matchesCacheDone, Bool.and_eq_true, decide_eq_true_eq] at hp2
        have hres : create_build builds req now = (b, false) := by
          simp [create_build, hforce, hfind]
        rw [hres]
        exact ⟨hmem, hp2.1, hp2.2⟩
  · intro hforce hex
    obtain ⟨b, hmem, hfp, hdone⟩ := hex
    have hsome : (builds.find? (matchesCacheDone (normalize_request req))).isSome := by
      rw [List.find?_isSome]
      exact ⟨b, hmem, by simp [matchesCacheDone, hfp, hdone]⟩
    cases hfind : builds.find? (matchesCacheDone (normalize_request req)) with
    | none => rw [hfind] at hsome; simp at hsome
    | some c => simp [create_build, hforce, hfind]
  · intro hforce hall
    have hnone : builds.find? (matchesCacheDone (normalize_request req)) = none := by
      rw [List.find?_eq_none]
      intro b hmem
      simp only [matchesCacheDone, Bool.and_eq_true, decide_eq_true_eq, not_and]
      intro hfp
      exact hall b hmem hfp
    simp [create_build, hforce, hnone]

/-- Witness for C4: a request identical to `sampleReq` finds the `done`
record `sampleDone` in the store `[sampleQueued with build_id b0, sampleDone]`
and returns it with `created = false`, while the same call with
`force_rebuild = true` creates a fresh record. -/
theorem c4_dedup_witness :
    create_build [sampleDone] sampleReq "2026-01-02T03:08:00Z" = (sampleDone, false)
    ∧ (create_build [sampleDone]
        { sampleReq with options := { sampleOpts with force_rebuild := true } }
        "2026-01-02T03:08:00Z").2 = true := by
  constructor
  · have h2 := (c4_dedup [sampleDone] sampleReq "2026-01-02T03:08:00Z").2.2.1
      (by rfl) ⟨sampleDone, by simp, by rfl, by rfl⟩
    have h1 := (c4_dedup [sampleDone] sampleReq "2026-01-02T03:08:00Z").2.1 h2
    have hmem := h1.1
    simp only [List.mem_singleton] at hmem
    have : create_build [sampleDone] sampleReq "2026-01-02T03:08:00Z" =
        ((create_build [sampleDone] sampleReq "2026-01-02T03:08:00Z").1,
         (create_build [sampleDone] sampleReq "2026-01-02T03:08:00Z").2) := rfl
    rw [this, hmem, h2]
  · have h := (c4_dedup [sampleDone]
      { sampleReq with options := { sampleOpts with force_rebuild := true } }
      "2026-01-02T03:08:00Z").1 (by rfl)
    rw [h]

/-! ### Build registry: record persistence for `create_build`
(`BuildsRegistry._write_build` → `BaseRegistry._atomic_write_json`, which
replaces the destination file unconditionally). -/

/-- The builds directory as a keyed store of record files;
`_atomic_write_json` replaces an existing file for the same id and otherwise
creates a new one — there is no existence check anywhere in `create_build`. -/
def writeStore (store : List (String × Build)) (bid : String) (b : Build) :
    List (String × Build) :=
  if store.any (fun p => p.1 == bid) then
    store.map (fun p => if p.1 == bid then (bid, b) else p)
  else store ++ [(bid, b)]

/-- `create_build` acting on the stored record files: `list_builds()` is the
stored records, and a created record is persisted with `_write_build`
(an unconditional replace). Returns the store afterwards, the record and the
`created` flag. -/
def create_build_store (store : List (String × Build)) (req : BuildRequest)
    (now : String) : List (String × Build) × Build × Bool :=
  match create_build (store.map Prod.snd) req now with
  | (b, true) => (writeStore store b.build_id b, b, true)
  | (b, false) => (store, b, false)

/-- A second request with the same `profile_id` as `sampleReq` but different
`output_images`, so its normalized fingerprint differs. -/
def reqFactoryToo : BuildRequest :=
  { sampleReq with
    options := { sampleOpts with output_images := [ImageKind.sysupgrade, ImageKind.factory] } }

/-- Store contents after creating `sampleReq` in an empty builds directory at
`2026-01-02T03:04:05Z`. -/
def storeAfterFirst : List (String × Build) :=
  (create_build_store [] sampleReq "2026-01-02T03:04:05Z").1

/-- Store contents after then creating `reqFactoryToo` in the same second. -/
def storeAfterSecond : List (String × Build) :=
  (create_build_store storeAfterFirst reqFactoryToo "2026-01-02T03:04:05Z").1

/-- Claim C8: the slug of `{profile_id}-{created_at}` is claimed to be the
build id (which the code does produce, by lowercasing, replacing runs of
non-alphanumerics with a dash and trimming dashes), and the implementation is
claimed to verify that no record file with that id exists before persisting,
regenerating on collision. The code performs no such check: two `create_build`
calls with the same `profile_id` in the same second (here with different
`output_images`, so the second is not a cache hit) produce the same id, both
report `created = true`, and the second silently replaces the first record —
after both calls the store holds a single record whose request is the second
request. -/
theorem c8_same_second_create_overwrites :
    slugStr ("router" ++ "-" ++ "2026-01-02T03:04:05Z") = "router-2026-01-02t03-04-05z"
    ∧ slugStr "  My Router!! " = "my-router"
    ∧ storeAfterFirst = [("router-2026-01-02t03-04-05z",
        fresh_build sampleReq "router-2026-01-02t03-04-05z" "2026-01-02T03:04:05Z")]
    ∧ (create_build_store storeAfterFirst reqFactoryToo "2026-01-02T03:04:05Z").2.2 = true
    ∧ (create_build_store storeAfterFirst reqFactoryToo
        "2026-01-02T03:04:05Z").2.1.build_id = "router-2026-01-02t03-04-05z"
    ∧ storeAfterSecond = [("router-2026-01-02t03-04-05z",
        fresh_build reqFactoryToo "router-2026-01-02t03-04-05z" "2026-01-02T03:04:05Z")]
    ∧ reqFactoryToo ≠ sampleReq := by
  refine ⟨by decide, by decide, by decide, by decide, by decide, by decide, by decide⟩

/-! ### Runner: executor-update application (`runner/runner.py`,
`BuildRunner._apply_executor_update`, lines 154-237, with its helpers
`_clamp_progress`, `_clip_tail`, `_append_log_chunk`,
`_normalize_phase_event`). -/

/-- `_MAX_TAIL_CHARS` in `runner/runner.py`. -/
def maxTailChars : Nat := 32000

/-- `_MAX_PHASE_EVENTS` in `runner/runner.py`. -/
def maxPhaseEvents : Nat := 64

/-- `BuildRunner._clamp_progress` on a value that parses as an integer (the
unparseable case is embedded as `none` in the event fields). -/
def clamp_progress (v : Int) : Int := max 0 (min 100 v)

/-- `BuildRunner._clip_tail`: keep the last `_MAX_TAIL_CHARS` characters. -/
def clip_tail (t : List Char) : List Char :=
  if t.length ≤ maxTailChars then t else t.drop (t.length - maxTailChars)

/-- `BuildRunner._append_log_chunk`: append, then clip. -/
def append_log_chunk (tail chunk : List Char) : List Char :=
  clip_tail (tail ++ chunk)

/-- The raw `phase_event` payload found in an update event. -/
structure RawPhaseEvent where
  phase : String
  progress : Option Int
  message : Option String
deriving DecidableEq

/-- One executor update event as consumed by `_apply_executor_update`:
every field is optional (`event.get(...)`), `progress` is `none` when absent
or unparseable, chunks are character lists. -/
structure UpdateEvent where
  progress : Option Int
  message : Option String
  phase : Option String
  stdout_path : Option String
  stderr_path : Option String
  stdout_chunk : Option (List Char)
  stderr_chunk : Option (List Char)
  phase_event : Option RawPhaseEvent
deriving DecidableEq

/-- `BuildRunner._normalize_phase_event` (lines 164-181); `now` embeds
`BaseRegistry._now_z()`. -/
def normalize_phase_event (now : String) (raw : RawPhaseEvent) : Option PhaseEvent :=
  let phase := pyStrip raw.phase
  if phase = "" then none
  else
    match raw.progress with
    | none => none
    | some p =>
      some { at_ := now, phase := phase, progress := clamp_progress p
             message := truthyOrNone (raw.message.map pyStrip) }

/-- The default logs dict created when the stored record has no valid `logs`
(lines 202-210). -/
def defaultLogs : BuildLogs :=
  { stdout_path := none, stderr_path := none, stdout_tail := [], stderr_tail := []
    updated_at := none }

/-- The chunk carried by an optional event field, with Python truthiness:
`none` and the empty string behave alike. -/
def chunkOf (c : Option (List Char)) : List Char := c.getD []

/-- Path and tail updates applied to the logs dict (lines 211-222). -/
def update_logs (l : BuildLogs) (e : UpdateEvent) : BuildLogs :=
  let l := match e.stdout_path with
    | some p => { l with stdout_path := orNoneIfEmpty (pyStrip p) }
    | none => l
  let l := match e.stderr_path with
    | some p => { l with stderr_path := orNoneIfEmpty (pyStrip p) }
    | none => l
  let l := if (chunkOf e.stdout_chunk).isEmpty then l
    else { l with stdout_tail := append_log_chunk l.stdout_tail (chunkOf e.stdout_chunk) }
  let l := if (chunkOf e.stderr_chunk).isEmpty then l
    else { l with stderr_tail := append_log_chunk l.stderr_tail (chunkOf e.stderr_chunk) }
  l

/-- Line 223: the logs dict is stored back (with a refreshed timestamp) only
when a chunk or a path field was present in the event. -/
def logs_touched (e : UpdateEvent) : Bool :=
  !(chunkOf e.stdout_chunk).isEmpty || !(chunkOf e.stderr_chunk).isEmpty
    || e.stdout_path.isSome || e.stderr_path.isSome

/-- Phase-event list update (lines 227-235): at most one normalized event is
appended, and on overflow the oldest entries are dropped
(`phase_events[-_MAX_PHASE_EVENTS:]`). -/
def update_phase_events (now : String) (pes : List PhaseEvent) (e : UpdateEvent) :
    List PhaseEvent :=
  match e.phase_event.bind (normalize_phase_event now) with
  | some ev =>
    let pe2 := pes ++ [ev]
    if maxPhaseEvents < pe2.length then pe2.drop (pe2.length - maxPhaseEvents) else pe2
  | none => pes

/-- `BuildRunner._apply_executor_update`. `stored = none` embeds a read that
fails with `FileNotFoundError`, `JSONDecodeError` or `ValidationError`
(lines 184-187); the result is the record written back, or `none` when the
method returns without writing. -/
def apply_executor_update (now : String) (stored : Option Build) (e : UpdateEvent) :
    Option Build :=
  match stored with
  | none => none
  | some build =>
    if terminalState build.state then none
    else
      let base := { build with
        progress := match e.progress with
          | some p => clamp_progress p
          | none => build.progress
        message := truthyOrNone (match e.message with
          | some m => some (pyStrip m)
          | none => build.message)
        phase := truthyOrNone (match e.phase with
          | some p => some (pyStrip p)
          | none => build.phase)
        updated_at := now }
      let newLogs :=
        { update_logs (base.logs.getD defaultLogs) e with updated_at := some now }
      let withLogs := if logs_touched e then { base with logs := some newLogs } else base
      some { withLogs with phase_events := update_phase_events now withLogs.phase_events e }

/-- The record found on disk after `_apply_executor_update` runs against the
stored record `b`: the written record, or `b` unchanged on early return. -/
def stored_after_update (now : String) (b : Build) (e : UpdateEvent) : Build :=
  match apply_executor_update now (some b) e with
  | some b2 => b2
  | none => b

/-- The stdout tail of a record, empty when `logs` is absent (what
`str(logs.get("stdout_tail") or "")` reads). -/
def tailOut (b : Build) : List Char :=
  match b.logs with
  | some l => l.stdout_tail
  | none => []

/-- The stderr tail of a record, empty when `logs` is absent. -/
def tailErr (b : Build) : List Char :=
  match b.logs with
  | some l => l.stderr_tail
  | none => []

/-- `_clip_tail` never returns more than `_MAX_TAIL_CHARS` characters. -/
theorem clip_tail_length_le (t : List Char) : (clip_tail t).length ≤ maxTailChars := by
  unfold clip_tail
  split
  · assumption
  · simp only [List.length_drop]
    omega

/-- `_clip_tail` keeps a suffix of its input. -/
theorem clip_tail_suffix (t : List Char) : (clip_tail t).IsSuffix t := by
  unfold clip_tail
  split
  · exact List.suffix_refl t
  · exact List.drop_suffix _ t

/-- The phase-event update appends at most one entry. -/
theorem update_phase_events_length_succ (now : String) (pes : List PhaseEvent)
    (e : UpdateEvent) :
    (update_phase_events now pes e).length ≤ pes.length + 1 := by
  unfold update_phase_events
  cases h : e.phase_event.bind (normalize_phase_event now) with
  | none => exact Nat.le_succ _
  | some ev =>
    show (if maxPhaseEvents < (pes ++ [ev]).length then
        (pes ++ [ev]).drop ((pes ++ [ev]).length - maxPhaseEvents)
      else (pes ++ [ev])).length ≤ pes.length + 1
    by_cases hlen : maxPhaseEvents < (pes ++ [ev]).length
    · rw [if_pos hlen]
      simp only [List.length_drop, List.length_append, List.length_singleton]
      omega
    · rw [if_neg hlen]
      simp

/-- The phase-event update keeps the list within the 64-entry cap. -/
theorem update_phase_events_length_le (now : String) (pes : List PhaseEvent)
    (e : UpdateEvent) (h : pes.length ≤ maxPhaseEvents) :
    (update_phase_events now pes e).length ≤ maxPhaseEvents := by
  unfold update_phase_events
  cases hb : e.phase_event.bind (normalize_phase_event now) with
  | none => exact h
  | some ev =>
    show (if maxPhaseEvents < (pes ++ [ev]).length then
        (pes ++ [ev]).drop ((pes ++ [ev]).length - maxPhaseEvents)
      else (pes ++ [ev])).length ≤ maxPhaseEvents
    by_cases hlen : maxPhaseEvents < (pes ++ [ev]).length
    · rw [if_pos hlen]
      simp only [List.length_drop]
      omega
    · rw [if_neg hlen]
      omega

/-- The phase-event update leaves the list unchanged or keeps a suffix of the
list with one entry appended (the oldest entries are what gets dropped). -/
theorem update_phase_events_suffix (now : String) (pes : List PhaseEvent)
    (e : UpdateEvent) :
    update_phase_events now pes e = pes
    ∨ ∃ ev, (update_phase_events now pes e).IsSuffix (pes ++ [ev]) := by
  unfold update_phase_events
  cases hb : e.phase_event.bind (normalize_phase_event now) with
  | none => exact Or.inl rfl
  | some ev =>
    refine Or.inr ⟨ev, ?_⟩
    show (if maxPhaseEvents < (pes ++ [ev]).length then
        (pes ++ [ev]).drop ((pes ++ [ev]).length - maxPhaseEvents)
      else (pes ++ [ev])).IsSuffix (pes ++ [ev])
    by_cases hlen : maxPhaseEvents < (pes ++ [ev]).length
    · rw [if_pos hlen]
      exact List.drop_suffix _ _
    · rw [if_neg hlen]

/-- The stdout tail written by `update_logs`. -/
theorem update_logs_stdout (l : BuildLogs) (e : UpdateEvent) :
    (update_logs l e).stdout_tail =
      if (chunkOf e.stdout_chunk).isEmpty then l.stdout_tail
      else append_log_chunk l.stdout_tail (chunkOf e.stdout_chunk) := by
  unfold update_logs
  cases e.stdout_path <;> cases e.stderr_path <;>
    by_cases h1 : (chunkOf e.stdout_chunk).isEmpty <;>
    by_cases h2 : (chunkOf e.stderr_chunk).isEmpty <;>
    simp [h1, h2]

/-- The stderr tail written by `update_logs`. -/
theorem update_logs_stderr (l : BuildLogs) (e : UpdateEvent) :
    (update_logs l e).stderr_tail =
      if (chunkOf e.stderr_chunk).isEmpty then l.stderr_tail
      else append_log_chunk l.stderr_tail (chunkOf e.stderr_chunk) := by
  unfold update_logs
  cases e.stdout_path <;> cases e.stderr_path <;>
    by_cases h1 : (chunkOf e.stdout_chunk).isEmpty <;>
    by_cases h2 : (chunkOf e.stderr_chunk).isEmpty <;>
    simp [h1, h2]

/-- `tailOut` through the `logs.getD defaultLogs` read. -/
theorem tailOut_getD (b : Build) : (b.logs.getD defaultLogs).stdout_tail = tailOut b := by
  cases h : b.logs <;> simp [tailOut, h, defaultLogs]

/-- `tailErr` through the `logs.getD defaultLogs` read. -/
theorem tailErr_getD (b : Build) : (b.logs.getD defaultLogs).stderr_tail = tailErr b := by
  cases h : b.logs <;> simp [tailErr, h, defaultLogs]

/-- Phase events of the record on disk after `_apply_executor_update`. -/
theorem stored_after_update_pe (now : String) (b : Build) (e : UpdateEvent) :
    (stored_after_update now b e).phase_events =
      if terminalState b.state then b.phase_events
      else update_phase_events now b.phase_events e := by
  unfold stored_after_update apply_executor_update
  by_cases h : terminalState b.state
  · simp [h]
  · simp only [h, Bool.false_eq_true, if_false, if_neg]
    split <;> rfl

/-- Stdout tail of the record on disk after `_apply_executor_update`. -/
theorem stored_after_update_tailOut (now : String) (b : Build) (e : UpdateEvent) :
    tailOut (stored_after_update now b e) =
      if terminalState b.state then tailOut b
      else if logs_touched e then (update_logs (b.logs.getD defaultLogs) e).stdout_tail
      else tailOut b := by
  unfold stored_after_update apply_executor_update
  by_cases h : terminalState b.state
  · simp [h]
  · simp only [h, Bool.false_eq_true, if_false, if_neg]
    by_cases ht : logs_touched e
    · simp only [ht, if_true]
      rfl
    · simp only [ht, Bool.false_eq_true, if_false]
      rfl

/-- Stderr tail of the record on disk after `_apply_executor_update`. -/
theorem stored_after_update_tailErr (now : String) (b : Build) (e : UpdateEvent) :
    tailErr (stored_after_update now b e) =
      if terminalState b.state then tailErr b
      else if logs_touched e then (update_logs (b.logs.getD defaultLogs) e).stderr_tail
      else tailErr b := by
  unfold stored_after_update apply_executor_update
  by_cases h : terminalState b.state
  · simp [h]
  · simp only [h, Bool.false_eq_true, if_false, if_neg]
    by_cases ht : logs_touched e
    · simp only [ht, if_true]
      rfl
    · simp only [ht, Bool.false_eq_true, if_false]
      rfl

/-- Claim C9: bounded-record invariant preserved by every executor-update
application. For every stored record within the bounds and every update
event, the record on disk after `_apply_executor_update` has
`stdout_tail`/`stderr_tail` of at most 32000 characters (each new tail is a
suffix of the old tail plus the chunk, so older content is dropped from the
front), and `phase_events` of at most 64 entries with at most one entry
appended per event (on overflow a suffix survives, so the oldest entries are
dropped). -/
theorem c9_bounds_preserved (now : String) (b : Build) (e : UpdateEvent)
    (hOut : (tailOut b).length ≤ maxTailChars)
    (hErr : (tailErr b).length ≤ maxTailChars)
    (hPe : b.phase_events.length ≤ maxPhaseEvents) :
    (tailOut (stored_after_update now b e)).length ≤ maxTailChars
    ∧ (tailErr (stored_after_update now b e)).length ≤ maxTailChars
    ∧ (stored_after_update now b e).phase_events.length ≤ maxPhaseEvents
    ∧ (stored_after_update now b e).phase_events.length ≤ b.phase_events.length + 1
    ∧ (∃ c, (tailOut (stored_after_update now b e)).IsSuffix (tailOut b ++ c))
    ∧ (∃ c, (tailErr (stored_after_update now b e)).IsSuffix (tailErr b ++ c))
    ∧ ((stored_after_update now b e).phase_events = b.phase_events
        ∨ ∃ ev, ((stored_after_update now b e).phase_events).IsSuffix
            (b.phase_events ++ [ev])) := by
  rw [stored_after_update_pe, stored_after_update_tailOut, stored_after_update_tailErr]
  by_cases hterm : terminalState b.state
  · simp only [hterm, if_true]
    refine ⟨hOut, hErr, hPe, Nat.le_succ_of_le (Nat.le_refl _),
      ⟨[], ?_⟩, ⟨[], ?_⟩, Or.inl trivial⟩
    · simp
    · simp
  · simp only [hterm, Bool.false_eq_true, if_false]
    refine ⟨?_, ?_, update_phase_events_length_le now b.phase_events e hPe,
      update_phase_events_length_succ now b.phase_events e, ?_, ?_,
      update_phase_events_suffix now b.phase_events e⟩
    · by_cases ht : logs_touched e
      · simp only [ht, if_true, update_logs_stdout, tailOut_getD]
        by_cases hc : (chunkOf e.stdout_chunk).isEmpty
        · simpa [hc] using hOut
        · simp only [hc, Bool.false_eq_true, if_false]
          exact clip_tail_length_le _
      · simpa [ht] using hOut
    · by_cases ht : logs_touched e
      · simp only [ht, if_true, update_logs_stderr, tailErr_getD]
        by_cases hc : (chunkOf e.stderr_chunk).isEmpty
        · simpa [hc] using hErr
        · simp only [hc, Bool.false_eq_true, if_false]
          exact clip_tail_length_le _
      · simpa [ht] using hErr
    · by_cases ht : logs_touched e
      · simp only [ht, if_true, update_logs_stdout, tailOut_getD]
        by_cases hc : (chunkOf e.stdout_chunk).isEmpty
        · exact ⟨[], by simp [hc]⟩
        · refine ⟨chunkOf e.stdout_chunk, ?_⟩
          simp only [hc, Bool.false_eq_true, if_false]
          exact clip_tail_suffix _
      · exact ⟨[], by simp [ht]⟩
    · by_cases ht : logs_touched e
      · simp only [ht, if_true, update_logs_stderr, tailErr_getD]
        by_cases hc : (chunkOf e.stderr_chunk).isEmpty
        · exact ⟨[], by simp [hc]⟩
        · refine ⟨chunkOf e.stderr_chunk, ?_⟩
          simp only [hc, Bool.false_eq_true, if_false]
          exact clip_tail_suffix _
      · exact ⟨[], by simp [ht]⟩

/-- A concrete update event carrying a log chunk and a phase event. -/
def sampleEvent : UpdateEvent :=
  { progress := some 50, message := some "building", phase := some "building"
    stdout_path := some "/data/builds/b1/logs/stdout.log", stderr_path := none
    stdout_chunk := some "hello".data, stderr_chunk := none
    phase_event := some { phase := "building", progress := some 50, message := none } }

/-- Witness for C9: the bounds evaluated on the concrete running record and
event — the stored record afterwards keeps both tails within 32000 characters
and the phase events within 64 entries. -/
theorem c9_bounds_preserved_witness :
    (tailOut (stored_after_update "2026-01-02T03:09:00Z" sampleRunning sampleEvent)).length
      ≤ maxTailChars
    ∧ (stored_after_update "2026-01-02T03:09:00Z" sampleRunning
        sampleEvent).phase_events.length ≤ maxPhaseEvents := by
  have h := c9_bounds_preserved "2026-01-02T03:09:00Z" sampleRunning sampleEvent
    (by decide) (by decide) (by decide)
  exact ⟨h.1, h.2.2.1⟩

/-- Claim C10: once a stored record's state is terminal (`done`, `failed` or
`canceled`), or the record is missing or invalid, `_apply_executor_update` is
a no-op — it returns without writing, so no later update event can modify a
terminal record. -/
theorem c10_terminal_update_is_noop :
    (∀ now e, apply_executor_update now none e = none)
    ∧ (∀ now (b : Build) e, terminalState b.state = true →
        apply_executor_update now (some b) e = none) := by
  constructor
  · intro now e
    rfl
  · intro now b e h
    simp [apply_executor_update, h]

/-- Witness for C10: applying the concrete event to the concrete `done`
record writes nothing. -/
theorem c10_terminal_update_is_noop_witness :
    apply_executor_update "2026-01-02T03:09:00Z" (some sampleDone) sampleEvent = none :=
  c10_terminal_update_is_noop.2 "2026-01-02T03:09:00Z" sampleDone sampleEvent (by decide)

/-! ### Runner main loop: from dequeue to the executor call
(`runner/runner.py`, `BuildRunner.run_forever`, lines 267-344, and
`BuildRunner._set_state`, lines 120-144). -/

/-- `BuildRunner._set_state`: partial state changes on the in-memory dict.
`none` for `state`/`progress`/`phase`/`result` embeds an omitted keyword
argument; `message` is written unconditionally (the loop always passes it);
`pid_given` distinguishes an omitted `runner_pid` from an explicit `None`.
The method never touches `cancel_requested`. -/
def set_state (now : String) (b : Build) (state : Option BuildState)
    (progress : Option Int) (message : Option String) (phase : Option String)
    (result : Option BuildResult) (pid_given : Bool) (pid : Option Nat) : Build :=
  let b := match state with
    | some s => { b with state := s }
    | none => b
  let b := match progress with
    | some p => { b with progress := p }
    | none => b
  let b := match phase with
    | some ph => { b with phase := orNoneIfEmpty (pyStrip ph) }
    | none => b
  let b := { b with updated_at := now, message := message }
  let b := match result with
    | some r => { b with result := some r }
    | none => b
  if pid_given then { b with runner_pid := pid } else b

/-- `_set_state` never modifies `cancel_requested`. -/
theorem set_state_cancel_requested (now : String) (b : Build)
    (st : Option BuildState) (pr : Option Int) (ms : Option String)
    (ph : Option String) (rs : Option BuildResult) (pg : Bool) (pd : Option Nat) :
    (set_state now b st pr ms ph rs pg pd).cancel_requested = b.cancel_requested := by
  unfold set_state
  cases st <;> cases pr <;> cases ph <;> cases rs <;> cases pg <;> rfl

/-- Where one main-loop iteration ends up, between reading the dequeued
record and the executor call. -/
inductive PreExecOutcome
  | dropped
  | canceled_before_start (persisted : Build)
  | canceled_before_executor (persisted : Build)
  | executor_invoked (memBuild : Build)
deriving DecidableEq

/-- Whether the iteration reaches the executor call. -/
def invokesExecutor (o : PreExecOutcome) : Bool :=
  match o with
  | PreExecOutcome.executor_invoked _ => true
  | _ => false

/-- The main-loop segment from the record read at line 274 to the executor
call at line 341, on the in-memory record `mem`. `diskAtPreExec` is the
on-disk record at the moment of the pre-executor cancel check (line 330,
comment "cancel right before executor"): the source never reads the disk
there — the check tests `build.get("cancel_requested")` on the in-memory
dict read at line 274, which no intervening `_set_state` call modifies (the
`_write_build`/`_apply_executor_update` calls in between write the disk but
never mutate the local `build` dict, so they are omitted here). -/
def loop_to_executor (nowStart nowPrep : String) (pid : Nat)
    (mem : Build) (diskAtPreExec : Build) : PreExecOutcome :=
  if terminalState mem.state then PreExecOutcome.dropped
  else if mem.state ≠ BuildState.queued then PreExecOutcome.dropped
  else if mem.cancel_requested = true then
    PreExecOutcome.canceled_before_start
      (set_state nowStart mem (some BuildState.canceled) none (some "canceled")
        (some "canceled") none true none)
  else
    let b1 := set_state nowStart mem (some BuildState.running) (some 1)
      (some "starting") (some "starting") none true (some pid)
    let b2 := set_state nowPrep b1 none (some 5) (some "preparing")
      (some "preparing") none false none
    if b2.cancel_requested = true then
      PreExecOutcome.canceled_before_executor
        (set_state nowPrep b2 (some BuildState.canceled) none (some "canceled")
          (some "canceled") none true none)
    else PreExecOutcome.executor_invoked (let _ := diskAtPreExec; b2)

/-- Claim C7: the runner is claimed to re-read the record from disk after the
`preparing` update and, when the re-read record has `cancel_requested`,
cancel without invoking the executor. The code's pre-executor check never
reads the disk (the outcome is the same for every on-disk record), and it can
never fire: it re-tests the same unchanged in-memory field that the
pre-start check already found false, so the `canceled_before_executor`
outcome is unreachable, and in the concrete run where the on-disk record
gained `cancel_requested = true` after the `running` transition, the
executor is invoked anyway. -/
theorem c7_pre_executor_check_is_stale :
    (∀ nowStart nowPrep pid mem disk1 disk2,
        loop_to_executor nowStart nowPrep pid mem disk1 =
          loop_to_executor nowStart nowPrep pid mem disk2)
    ∧ (∀ nowStart nowPrep pid mem disk b,
        loop_to_executor nowStart nowPrep pid mem disk ≠
          PreExecOutcome.canceled_before_executor b)
    ∧ invokesExecutor (loop_to_executor "2026-01-02T03:10:00Z" "2026-01-02T03:10:01Z"
        777 sampleQueued { sampleQueued with cancel_requested := true }) = true := by
  refine ⟨?_, ?_, ?_⟩
  · intro nowStart nowPrep pid mem disk1 disk2
    rfl
  · intro nowStart nowPrep pid mem disk b
    unfold loop_to_executor
    by_cases h1 : terminalState mem.state
    · simp [h1]
    · by_cases h2 : mem.state = BuildState.queued
      · by_cases h3 : mem.cancel_requested = true
        · simp [h1, h2, h3, terminalState]
        · simp [h1, h2, h3, set_state_cancel_requested, terminalState]
      · simp [h1, h2]
  · rfl

end OpenWrtBuilder
